import Mathlib

/-
Verification of the liquidity-provision round state machine
(src/packages/valory/skills/liquidity_provision/rounds.py) and the
service-registry contract binding
(src/packages/valory/contracts/service_registry/contract.py).

The round base behaviours (CollectSameUntilThresholdRound,
CollectDifferentUntilThresholdRound, OnlyKeeperSendsRound, VotingRound) and
the period-state store (BasePeriodState) live in the
packages.valory.skills.abstract_round_abci framework, which is not part of
the sources here; those pieces are modelled from the specification (sections
3 and 4.1), as marked on each definition.  Everything else is translated
directly from the two source files.
-/

set_option maxRecDepth 8192

namespace LP

/-- Event enumeration for the liquidity provision demo (rounds.py, class Event). -/
inductive Event where
  | DONE
  | EXIT
  | ROUND_TIMEOUT
  | NO_MAJORITY
  | RESET_TIMEOUT
  | WAIT
deriving DecidableEq

/-- Modelled from the spec: the strategy action tag that
StrategyEvaluationRound.end_block compares against (StrategyType comes from
packages.valory.skills.liquidity_provision.payloads, which is not among the
sources; the WAIT/GO alternatives follow the spec description of the
strategy-evaluation decision). -/
inductive StrategyType where
  | GO
  | WAIT
deriving DecidableEq

/-- Modelled from the spec: a strategy payload value.  In the source it is a
dict; end_block only inspects its action entry, so the remaining entries
are abstracted away. -/
structure StrategyDescriptor where
  action : StrategyType
deriving DecidableEq

/-- The dynamic values stored in the period state: strings (tx hashes,
addresses), per-participant payload maps, per-participant vote maps and
strategy descriptors. -/
inductive Value where
  | str (s : String)
  | strategy (d : StrategyDescriptor)
  | strMap (m : List (String × String))
  | strategyMap (m : List (String × StrategyDescriptor))
  | boolMap (m : List (String × Bool))
deriving DecidableEq

/-- Modelled from the spec (section 3): a period-state snapshot is a mapping
from attribute name to value.  An association list where the first binding
of a key is the current one. -/
abbrev StateDB := List (String × Value)

/-- Look an attribute up in a snapshot (first binding wins). -/
def stateGet (db : StateDB) (k : String) : Option Value :=
  (db.find? (fun p => p.1 == k)).map (fun p => p.2)

/-- Modelled from the spec (section 3): BasePeriodState.db.get_strict fails
fast when the attribute was never set, and returns the stored value
otherwise, even when that value is empty. -/
def getStrict (db : StateDB) (k : String) : Except String Value :=
  match stateGet db k with
  | some v => Except.ok v
  | none => Except.error k

/-- Modelled from the spec (section 3): an update creates a new snapshot
copying all prior attributes and overwriting or adding the named ones. -/
def stateUpdate (db : StateDB) (kvs : List (String × Value)) : StateDB :=
  kvs ++ db

/-- PeriodState.most_voted_strategy (rounds.py line 78). -/
def PeriodState.most_voted_strategy (db : StateDB) : Except String Value :=
  getStrict db "most_voted_strategy"

/-- PeriodState.participant_to_votes (rounds.py line 83). -/
def PeriodState.participant_to_votes (db : StateDB) : Except String Value :=
  getStrict db "participant_to_votes"

/-- PeriodState.participant_to_strategy (rounds.py line 90). -/
def PeriodState.participant_to_strategy (db : StateDB) : Except String Value :=
  getStrict db "participant_to_strategy"

/-- PeriodState.participant_to_tx_hash (rounds.py line 98). -/
def PeriodState.participant_to_tx_hash (db : StateDB) : Except String Value :=
  getStrict db "participant_to_tx_hash"

/-- PeriodState.most_voted_keeper_address (rounds.py line 106). -/
def PeriodState.most_voted_keeper_address (db : StateDB) : Except String Value :=
  getStrict db "most_voted_keeper_address"

/-- PeriodState.safe_contract_address (rounds.py line 111). -/
def PeriodState.safe_contract_address (db : StateDB) : Except String Value :=
  getStrict db "safe_contract_address"

/-- PeriodState.multisend_contract_address (rounds.py line 116). -/
def PeriodState.multisend_contract_address (db : StateDB) : Except String Value :=
  getStrict db "multisend_contract_address"

/-- PeriodState.router_contract_address (rounds.py line 121). -/
def PeriodState.router_contract_address (db : StateDB) : Except String Value :=
  getStrict db "router_contract_address"

/-- PeriodState.participant_to_signature (rounds.py line 126). -/
def PeriodState.participant_to_signature (db : StateDB) : Except String Value :=
  getStrict db "participant_to_signature"

/-- PeriodState.most_voted_tx_hash (rounds.py line 134). -/
def PeriodState.most_voted_tx_hash (db : StateDB) : Except String Value :=
  getStrict db "most_voted_tx_hash"

/-- PeriodState.most_voted_tx_data (rounds.py line 139). -/
def PeriodState.most_voted_tx_data (db : StateDB) : Except String Value :=
  getStrict db "most_voted_tx_data"

/-- PeriodState.final_tx_hash (rounds.py line 144). -/
def PeriodState.final_tx_hash (db : StateDB) : Except String Value :=
  getStrict db "final_tx_hash"

/-- Modelled from the spec (section 4.1): number of submissions in a
collection carrying the given value. -/
def countVal [DecidableEq α] (c : List (String × α)) (v : α) : Nat :=
  (c.filter (fun p => p.2 == v)).length

/-- Modelled from the spec (section 4.1): the distinct submitted values in
first-submitted order, used for the deterministic tie break. -/
def firstOccurrences [DecidableEq α] (c : List (String × α)) : List α :=
  c.foldl (fun acc p => if acc.contains p.2 then acc else acc ++ [p.2]) []

/-- Modelled from the spec (section 4.1): most_common_value, the value with
the highest submission count, ties broken by first-submitted-wins. -/
def mostVotedPayload [DecidableEq α] (c : List (String × α)) : Option α :=
  (firstOccurrences c).foldl
    (fun best v =>
      match best with
      | none => some v
      | some b => if countVal c v > countVal c b then some v else best)
    none

/-- Count of the winning value; zero on an empty collection. -/
def maxVoteCount [DecidableEq α] (c : List (String × α)) : Nat :=
  match mostVotedPayload c with
  | some v => countVal c v
  | none => 0

/-- Modelled from the spec (section 4.1): threshold_reached is true iff the
most-submitted distinct value reaches the configured consensus threshold. -/
def thresholdReached [DecidableEq α] (threshold : Nat) (c : List (String × α)) : Bool :=
  match mostVotedPayload c with
  | some v => threshold ≤ countVal c v
  | none => false

/-- Modelled from the spec (section 4.1): collection_threshold_reached is
true iff the number of distinct submitters, regardless of value equality,
reaches the threshold. -/
def collectionThresholdReached (threshold : Nat) (c : List (String × α)) : Bool :=
  threshold ≤ c.length

/-- Modelled from the spec (section 4.1): majority_possible is false iff the
remaining unsubmitted slots can no longer let any value reach the threshold
even if every future submitter agrees with the current winner. -/
def isMajorityPossible [DecidableEq α] (threshold n : Nat) (c : List (String × α)) : Bool :=
  threshold ≤ maxVoteCount c + (n - c.length)

/-- Modelled from the spec (sections 4.2 and 8): votes for the given
polarity in a voting collection. -/
def countVotes (c : List (String × Bool)) (v : Bool) : Nat :=
  (c.filter (fun p => p.2 == v)).length

/-- Modelled from the spec (sections 4.2 and 8): positive votes clear the
consensus threshold. -/
def positiveVoteThresholdReached (threshold : Nat) (c : List (String × Bool)) : Bool :=
  threshold ≤ countVotes c true

/-- Modelled from the spec (sections 4.2 and 8): negative votes clear the
same threshold; the section 8 scenario (4 participants, threshold 3, two
negative votes, outcome NO_MAJORITY rather than the exit event) pins the
fraction to the consensus threshold itself. -/
def negativeVoteThresholdReached (threshold : Nat) (c : List (String × Bool)) : Bool :=
  threshold ≤ countVotes c false

/-- State of a CollectSameUntilThreshold tx-hash round: period state,
collection mapping each participant to the payload attribute it submitted
(the JSON-encoded tx_hash/tx_data string), participant count and consensus
threshold (the framework carries the latter two in the consensus params,
not among the sources). -/
structure THState where
  periodState : StateDB
  collection : List (String × String)
  nbParticipants : Nat
  threshold : Nat
deriving DecidableEq

/-- State of a CollectDifferentUntilThreshold signature round. -/
structure SigState where
  periodState : StateDB
  collection : List (String × String)
  nbParticipants : Nat
  threshold : Nat
deriving DecidableEq

/-- State of an OnlyKeeperSends finalization round: keeperPayload is the
keeper submission when present (has_keeper_sent_payload). -/
structure SendState where
  periodState : StateDB
  keeperPayload : Option String
deriving DecidableEq

/-- State of a VotingRound validation round: collection maps each
participant to its binary vote. -/
structure VotingState where
  periodState : StateDB
  collection : List (String × Bool)
  nbParticipants : Nat
  threshold : Nat
deriving DecidableEq

/-- State of the strategy-evaluation round: collection maps each
participant to its submitted strategy descriptor. -/
structure StrategyState where
  periodState : StateDB
  collection : List (String × StrategyDescriptor)
  nbParticipants : Nat
  threshold : Nat
deriving DecidableEq

/-- The class attribute exit_event of TransactionValidationBaseRound
(rounds.py line 255). -/
def exitEvent : Event := Event.EXIT

/-- TransactionHashBaseRound.end_block (rounds.py lines 182 to 196).  The
json.loads call on the most-voted payload is taken as a parameter, a
Python-standard-library decoder external to the sources, returning the
decoded flat object when the string is well formed; a decode failure or a
missing tx_hash or tx_data key raises in Python and is rendered as an
error. -/
def transactionHashEndBlock (jsonLoads : String → Option (List (String × String)))
    (r : THState) : Except String (Option (StateDB × Event)) :=
  if thresholdReached r.threshold r.collection then
    match mostVotedPayload r.collection with
    | none => Except.error "most_voted_payload"
    | some p =>
      match jsonLoads p with
      | none => Except.error "json.loads"
      | some d =>
        match (d.find? (fun q => q.1 == "tx_hash")).map (fun q => q.2),
              (d.find? (fun q => q.1 == "tx_data")).map (fun q => q.2) with
        | some h, some t =>
          Except.ok (some
            (stateUpdate r.periodState
              [("participant_to_tx_hash", Value.strMap r.collection),
               ("most_voted_tx_hash", Value.str h),
               ("most_voted_tx_data", Value.str t)],
             Event.DONE))
        | _, _ => Except.error "KeyError"
  else if !(isMajorityPossible r.threshold r.nbParticipants r.collection) then
    Except.ok (some (r.periodState, Event.NO_MAJORITY))
  else
    Except.ok none

/-- TransactionSignatureBaseRound.end_block (rounds.py lines 208 to 219). -/
def transactionSignatureEndBlock (r : SigState) : Option (StateDB × Event) :=
  if collectionThresholdReached r.threshold r.collection then
    some
      (stateUpdate r.periodState
        [("participant_to_signature", Value.strMap r.collection)],
       Event.DONE)
  else if !(isMajorityPossible r.threshold r.nbParticipants r.collection) then
    some (r.periodState, Event.NO_MAJORITY)
  else
    none

/-- TransactionSendBaseRound.end_block (rounds.py lines 236 to 242). -/
def transactionSendEndBlock (r : SendState) : Option (StateDB × Event) :=
  match r.keeperPayload with
  | some p =>
    some (stateUpdate r.periodState [("final_tx_hash", Value.str p)], Event.DONE)
  | none => none

/-- TransactionValidationBaseRound.end_block (rounds.py lines 258 to 273). -/
def transactionValidationEndBlock (r : VotingState) : Option (StateDB × Event) :=
  if positiveVoteThresholdReached r.threshold r.collection then
    some
      (stateUpdate r.periodState
        [("participant_to_votes", Value.boolMap r.collection)],
       Event.DONE)
  else if negativeVoteThresholdReached r.threshold r.collection then
    some (stateUpdate r.periodState [], exitEvent)
  else if !(isMajorityPossible r.threshold r.nbParticipants r.collection) then
    some (r.periodState, Event.NO_MAJORITY)
  else
    none

/-- StrategyEvaluationRound.end_block (rounds.py lines 291 to 308).  The
source stores the most-voted strategy in the updated state and immediately
reads it back through state.most_voted_strategy to inspect its action
entry; that read returns exactly the stored payload. -/
def strategyEvaluationEndBlock (r : StrategyState) : Option (StateDB × Event) :=
  if thresholdReached r.threshold r.collection then
    match mostVotedPayload r.collection with
    | none => none
    | some strat =>
      let state := stateUpdate r.periodState
        [("participant_to_strategy", Value.strategyMap r.collection),
         ("most_voted_strategy", Value.strategy strat)]
      let event :=
        if strat.action == StrategyType.GO then Event.DONE else Event.RESET_TIMEOUT
      some (state, event)
  else if !(isMajorityPossible r.threshold r.nbParticipants r.collection) then
    some (r.periodState, Event.NO_MAJORITY)
  else
    none

/-- The round classes appearing in LiquidityProvisionAbciApp.transition_function
(rounds.py lines 429 to 537). -/
inductive RoundId where
  | resetRound
  | strategyEvaluation
  | enterPoolTxHash
  | enterPoolTxSignature
  | enterPoolTxSend
  | enterPoolTxValidation
  | enterPoolRandomness
  | enterPoolSelectKeeper
  | exitPoolTxHash
  | exitPoolTxSignature
  | exitPoolTxSend
  | exitPoolTxValidation
  | exitPoolRandomness
  | exitPoolSelectKeeper
  | swapBackTxHash
  | swapBackTxSignature
  | swapBackTxSend
  | swapBackTxValidation
  | swapBackRandomness
  | swapBackSelectKeeper
  | resetAndPause
deriving DecidableEq

/-- LiquidityProvisionAbciApp.initial_round_cls (rounds.py line 428). -/
def initialRound : RoundId := RoundId.resetRound

/-- The EnterPoolTransactionValidationRound entry of the transition table as
written (rounds.py lines 454 to 459): a dict literal listing the
ROUND_TIMEOUT key twice. -/
def enterPoolValidationEntries : List (Event × RoundId) :=
  [(Event.DONE, RoundId.resetAndPause),
   (Event.ROUND_TIMEOUT, RoundId.resetRound),
   (Event.NO_MAJORITY, RoundId.resetRound),
   (Event.ROUND_TIMEOUT, RoundId.enterPoolRandomness)]

/-- The ExitPoolTransactionValidationRound entry as written (rounds.py
lines 485 to 490), with the ROUND_TIMEOUT key listed twice. -/
def exitPoolValidationEntries : List (Event × RoundId) :=
  [(Event.DONE, RoundId.swapBackTxHash),
   (Event.ROUND_TIMEOUT, RoundId.resetRound),
   (Event.NO_MAJORITY, RoundId.resetRound),
   (Event.ROUND_TIMEOUT, RoundId.exitPoolRandomness)]

/-- The SwapBackTransactionValidationRound entry as written (rounds.py
lines 516 to 521), with the ROUND_TIMEOUT key listed twice. -/
def swapBackValidationEntries : List (Event × RoundId) :=
  [(Event.DONE, RoundId.resetAndPause),
   (Event.ROUND_TIMEOUT, RoundId.resetRound),
   (Event.NO_MAJORITY, RoundId.resetRound),
   (Event.ROUND_TIMEOUT, RoundId.swapBackRandomness)]

/-- LiquidityProvisionAbciApp.transition_function (rounds.py lines 429 to
537), kept as the literal association lists of the source so that duplicate
dict keys stay visible. -/
def transitionFunction : List (RoundId × List (Event × RoundId)) :=
  [(RoundId.resetRound,
    [(Event.DONE, RoundId.strategyEvaluation)]),
   (RoundId.strategyEvaluation,
    [(Event.DONE, RoundId.enterPoolTxHash),
     (Event.WAIT, RoundId.resetAndPause),
     (Event.ROUND_TIMEOUT, RoundId.resetRound),
     (Event.NO_MAJORITY, RoundId.resetRound)]),
   (RoundId.enterPoolTxHash,
    [(Event.DONE, RoundId.enterPoolTxSignature),
     (Event.ROUND_TIMEOUT, RoundId.resetRound),
     (Event.NO_MAJORITY, RoundId.resetRound)]),
   (RoundId.enterPoolTxSignature,
    [(Event.DONE, RoundId.enterPoolTxSend),
     (Event.ROUND_TIMEOUT, RoundId.resetRound),
     (Event.NO_MAJORITY, RoundId.resetRound)]),
   (RoundId.enterPoolTxSend,
    [(Event.DONE, RoundId.enterPoolTxValidation),
     (Event.ROUND_TIMEOUT, RoundId.resetRound),
     (Event.NO_MAJORITY, RoundId.resetRound)]),
   (RoundId.enterPoolTxValidation, enterPoolValidationEntries),
   (RoundId.enterPoolRandomness,
    [(Event.DONE, RoundId.enterPoolSelectKeeper),
     (Event.ROUND_TIMEOUT, RoundId.resetRound),
     (Event.NO_MAJORITY, RoundId.resetRound)]),
   (RoundId.enterPoolSelectKeeper,
    [(Event.DONE, RoundId.exitPoolTxHash),
     (Event.ROUND_TIMEOUT, RoundId.resetRound),
     (Event.NO_MAJORITY, RoundId.resetRound)]),
   (RoundId.exitPoolTxHash,
    [(Event.DONE, RoundId.exitPoolTxSignature),
     (Event.ROUND_TIMEOUT, RoundId.resetRound),
     (Event.NO_MAJORITY, RoundId.resetRound)]),
   (RoundId.exitPoolTxSignature,
    [(Event.DONE, RoundId.exitPoolTxSend),
     (Event.ROUND_TIMEOUT, RoundId.resetRound),
     (Event.NO_MAJORITY, RoundId.resetRound)]),
   (RoundId.exitPoolTxSend,
    [(Event.DONE, RoundId.exitPoolTxValidation),
     (Event.ROUND_TIMEOUT, RoundId.resetRound),
     (Event.NO_MAJORITY, RoundId.resetRound)]),
   (RoundId.exitPoolTxValidation, exitPoolValidationEntries),
   (RoundId.exitPoolRandomness,
    [(Event.DONE, RoundId.exitPoolSelectKeeper),
     (Event.ROUND_TIMEOUT, RoundId.resetRound),
     (Event.NO_MAJORITY, RoundId.resetRound)]),
   (RoundId.exitPoolSelectKeeper,
    [(Event.DONE, RoundId.exitPoolTxHash),
     (Event.ROUND_TIMEOUT, RoundId.resetRound),
     (Event.NO_MAJORITY, RoundId.resetRound)]),
   (RoundId.swapBackTxHash,
    [(Event.DONE, RoundId.swapBackTxSignature),
     (Event.ROUND_TIMEOUT, RoundId.resetRound),
     (Event.NO_MAJORITY, RoundId.resetRound)]),
   (RoundId.swapBackTxSignature,
    [(Event.DONE, RoundId.swapBackTxSend),
     (Event.ROUND_TIMEOUT, RoundId.resetRound),
     (Event.NO_MAJORITY, RoundId.resetRound)]),
   (RoundId.swapBackTxSend,
    [(Event.DONE, RoundId.swapBackTxValidation),
     (Event.ROUND_TIMEOUT, RoundId.resetRound),
     (Event.NO_MAJORITY, RoundId.resetRound)]),
   (RoundId.swapBackTxValidation, swapBackValidationEntries),
   (RoundId.swapBackRandomness,
    [(Event.DONE, RoundId.swapBackSelectKeeper),
     (Event.ROUND_TIMEOUT, RoundId.resetRound),
     (Event.NO_MAJORITY, RoundId.resetRound)]),
   (RoundId.swapBackSelectKeeper,
    [(Event.DONE, RoundId.swapBackTxHash),
     (Event.ROUND_TIMEOUT, RoundId.resetRound),
     (Event.NO_MAJORITY, RoundId.resetRound)]),
   (RoundId.resetAndPause,
    [(Event.DONE, RoundId.strategyEvaluation),
     (Event.RESET_TIMEOUT, RoundId.resetRound),
     (Event.NO_MAJORITY, RoundId.resetRound)])]

/-- Python dict-literal semantics for an entry list: with a key written more
than once, the last binding wins. -/
def dictLookup (entries : List (Event × RoundId)) (e : Event) : Option RoundId :=
  ((entries.filter (fun p => p.1 == e)).getLast?).map (fun p => p.2)

/-- Number of bindings a dict literal declares for the given key. -/
def countKeys (entries : List (Event × RoundId)) (e : Event) : Nat :=
  (entries.filter (fun p => p.1 == e)).length

/-- Modelled from the spec (section 4.3): process_event looks up
table[type(current_round)][event]; a missing entry is the
UnknownTransitionError case, rendered as none. -/
def transition (r : RoundId) (e : Event) : Option RoundId :=
  match (transitionFunction.filter (fun p => p.1 == r)).getLast? with
  | some p => dictLookup p.2 e
  | none => none

/-- LiquidityProvisionAbciApp.event_to_timeout (rounds.py lines 538 to 541),
durations in whole seconds. -/
def eventToTimeout : List (Event × Nat) :=
  [(Event.EXIT, 5), (Event.ROUND_TIMEOUT, 30)]

/-- The round keys of the transition table, in declaration order. -/
def tableRounds : List RoundId :=
  transitionFunction.map (fun p => p.1)

/-- First assignment of DEPLOYED_BYTECODE_MD5_HASH (contract.py line 31). -/
def bytecodeHashA : String :=
  "288a5ecfe0b685d93f174ec24f743458679a4948d6517d77957fd67b72e5982eb85f543329059eabada38428eef9d548e407b1e0d60dd83af60099ea76bf5a76"

/-- Second assignment of DEPLOYED_BYTECODE_MD5_HASH (contract.py line 32). -/
def bytecodeHashB : String :=
  "2efb3d8756e0c16b79f15785774d02b7a7f1103c322fa000137bfda2fe4ed1b90352bd8e2f0c0be47357476332c88c8e477df8037ea35347e8275feccf58c4d9"

/-- Third assignment of DEPLOYED_BYTECODE_MD5_HASH (contract.py line 33). -/
def bytecodeHashC : String :=
  "fa67f4a5dff3f392b506c42816bc90086422a22a64103a11aa59640f036b8f8c70facdea13f8af9f893c25a0c838a9d0b03fed4a6c77b1d36f0beefe92b9379a"

/-- Fourth assignment of DEPLOYED_BYTECODE_MD5_HASH (contract.py line 34). -/
def bytecodeHashD : String :=
  "75d2a79df580ba1353211f93c479a9d6b78cc8f14e724290329e274fdcab4dc8cc04adbd8efbbce00a01af2dd6873f7e66a8c338a3d4f87a31ab0e283eef89de"

/-- The four module-level assignments to DEPLOYED_BYTECODE_MD5_HASH in
sequence (contract.py lines 31 to 34). -/
def bytecodeHashAssignments : List String :=
  [bytecodeHashA, bytecodeHashB, bytecodeHashC, bytecodeHashD]

/-- The effective module constant: sequential reassignment leaves the last
value (contract.py line 34). -/
def DEPLOYED_BYTECODE_MD5_HASH : String :=
  bytecodeHashAssignments.getLastD ""

/-- The dict returned by ServiceRegistryContract.verify_contract. -/
structure VerifyResult where
  verified : Bool
  sha512_hash : String
deriving DecidableEq

/-- ServiceRegistryContract.verify_contract (contract.py lines 51 to 66).
The hashlib.sha512 hex digest of the utf-8 encoding of the deployed
bytecode hex string is taken as a parameter, an external standard-library
function; deployedBytecode is the hex string returned by
ledger_api.api.eth.get_code(contract_address).hex(). -/
def verify_contract (sha512hexdigest : String → String)
    (deployedBytecode : String) : VerifyResult :=
  ⟨DEPLOYED_BYTECODE_MD5_HASH == sha512hexdigest deployedBytecode,
   sha512hexdigest deployedBytecode⟩

/-- A strategy-evaluation round in which three of four participants agree
on a strategy whose action is WAIT, so end_block yields RESET_TIMEOUT. -/
def strategyWaitInput : StrategyState :=
  ⟨[], [("a1", ⟨StrategyType.WAIT⟩), ("a2", ⟨StrategyType.WAIT⟩),
        ("a3", ⟨StrategyType.WAIT⟩)], 4, 3⟩

/-- A validation round in which three of four participants vote negative,
so end_block yields the configured exit event. -/
def validationNegativeInput : VotingState :=
  ⟨[], [("a1", false), ("a2", false), ("a3", false)], 4, 3⟩

/-- A tx-hash round in which three of four participants submit the same
JSON payload string. -/
def txHashDoneInput : THState :=
  ⟨[], [("a1", "payload"), ("a2", "payload"), ("a3", "payload")], 4, 3⟩

/-- A concrete decoder for the witness payload string. -/
def txHashJsonLoads : String → Option (List (String × String)) :=
  fun s =>
    if s == "payload" then
      some [("tx_hash", "0xabc"), ("tx_data", "0xdata")]
    else
      none

/-- A validation round with a two-against-two vote split among four
participants: no threshold is reachable any more (the section 8 scenario). -/
def validationSplitInput : VotingState :=
  ⟨[("safe_contract_address", Value.str "0xsafe")],
   [("a1", true), ("a2", false), ("a3", true), ("a4", false)], 4, 3⟩

/-- A validation round with three positive votes among four participants. -/
def validationPositiveInput : VotingState :=
  ⟨[("k", Value.str "v")], [("a1", true), ("a2", true), ("a3", true)], 4, 3⟩

/-- get_strict on the period-state store: an attribute never set yields the
fail-fast error naming it; an attribute that was set, even to an empty
value, is returned as stored. -/
theorem getStrict_spec (db : StateDB) (k : String) :
    (stateGet db k = none → getStrict db k = Except.error k) ∧
    (∀ v, stateGet db k = some v → getStrict db k = Except.ok v) := by
  constructor
  · intro h
    simp [getStrict, h]
  · intro v h
    simp [getStrict, h]

/-- C1: the transition function is not total on internally produced events:
StrategyEvaluationRound.end_block returns RESET_TIMEOUT when the agreed
strategy action is not GO (here three of four participants agree on WAIT,
threshold three), and the validation rounds return the configured EXIT
event when the negative-vote threshold is reached (here three of four
negative votes); the table has no entry for any of these pairs, so
process_event would raise UnknownTransitionError. -/
theorem transition_table_missing_internal_events :
    (strategyEvaluationEndBlock strategyWaitInput).map (fun x => x.2) =
      some Event.RESET_TIMEOUT ∧
    transition RoundId.strategyEvaluation Event.RESET_TIMEOUT = none ∧
    (transactionValidationEndBlock validationNegativeInput).map (fun x => x.2) =
      some Event.EXIT ∧
    transition RoundId.enterPoolTxValidation Event.EXIT = none ∧
    transition RoundId.exitPoolTxValidation Event.EXIT = none ∧
    transition RoundId.swapBackTxValidation Event.EXIT = none := by
  decide

/-- C2: the initial round ResetRound, trivially reachable, has a transition
entry only for DONE: there is no entry for NO_MAJORITY and none for any
timeout event, and ResetRound is the only round of the table in that
position. -/
theorem reset_round_missing_timeout_no_majority_entries :
    initialRound = RoundId.resetRound ∧
    transition initialRound Event.NO_MAJORITY = none ∧
    transition initialRound Event.ROUND_TIMEOUT = none ∧
    transition initialRound Event.RESET_TIMEOUT = none ∧
    tableRounds.filter (fun r =>
      (transition r Event.NO_MAJORITY).isNone ||
      ((transition r Event.ROUND_TIMEOUT).isNone &&
       (transition r Event.RESET_TIMEOUT).isNone)) = [RoundId.resetRound] := by
  decide

/-- C3: the dict literals for the EnterPool, ExitPool and SwapBack
validation rounds each declare the ROUND_TIMEOUT key twice, and under the
last-write-wins semantics of a Python dict literal the effective
ROUND_TIMEOUT transition of each goes to the corresponding randomness
round, not to ResetRound. -/
theorem duplicate_round_timeout_keys_last_write_wins :
    countKeys enterPoolValidationEntries Event.ROUND_TIMEOUT = 2 ∧
    countKeys exitPoolValidationEntries Event.ROUND_TIMEOUT = 2 ∧
    countKeys swapBackValidationEntries Event.ROUND_TIMEOUT = 2 ∧
    transition RoundId.enterPoolTxValidation Event.ROUND_TIMEOUT =
      some RoundId.enterPoolRandomness ∧
    transition RoundId.exitPoolTxValidation Event.ROUND_TIMEOUT =
      some RoundId.exitPoolRandomness ∧
    transition RoundId.swapBackTxValidation Event.ROUND_TIMEOUT =
      some RoundId.swapBackRandomness ∧
    (transition RoundId.enterPoolTxValidation Event.ROUND_TIMEOUT ==
      some RoundId.resetRound) = false ∧
    (transition RoundId.exitPoolTxValidation Event.ROUND_TIMEOUT ==
      some RoundId.resetRound) = false ∧
    (transition RoundId.swapBackTxValidation Event.ROUND_TIMEOUT ==
      some RoundId.resetRound) = false := by
  decide

/-- C4: when the same-value threshold is reached, the tx-hash round ends
with DONE and a state in which participant_to_tx_hash is the full
per-participant submission map and most_voted_tx_hash and most_voted_tx_data
are the tx_hash and tx_data entries of the JSON-decoded most-voted payload;
when the threshold is not reached and a majority is still possible, it
returns no decision. -/
theorem transaction_hash_end_block_spec
    (jsonLoads : String → Option (List (String × String))) (r : THState) :
    (∀ p d h t,
       thresholdReached r.threshold r.collection = true →
       mostVotedPayload r.collection = some p →
       jsonLoads p = some d →
       (d.find? (fun q => q.1 == "tx_hash")).map (fun q => q.2) = some h →
       (d.find? (fun q => q.1 == "tx_data")).map (fun q => q.2) = some t →
       transactionHashEndBlock jsonLoads r =
         Except.ok (some
           (stateUpdate r.periodState
             [("participant_to_tx_hash", Value.strMap r.collection),
              ("most_voted_tx_hash", Value.str h),
              ("most_voted_tx_data", Value.str t)],
            Event.DONE)) ∧
       PeriodState.participant_to_tx_hash
           (stateUpdate r.periodState
             [("participant_to_tx_hash", Value.strMap r.collection),
              ("most_voted_tx_hash", Value.str h),
              ("most_voted_tx_data", Value.str t)]) =
         Except.ok (Value.strMap r.collection) ∧
       PeriodState.most_voted_tx_hash
           (stateUpdate r.periodState
             [("participant_to_tx_hash", Value.strMap r.collection),
              ("most_voted_tx_hash", Value.str h),
              ("most_voted_tx_data", Value.str t)]) =
         Except.ok (Value.str h) ∧
       PeriodState.most_voted_tx_data
           (stateUpdate r.periodState
             [("participant_to_tx_hash", Value.strMap r.collection),
              ("most_voted_tx_hash", Value.str h),
              ("most_voted_tx_data", Value.str t)]) =
         Except.ok (Value.str t)) ∧
    (thresholdReached r.threshold r.collection = false →
     isMajorityPossible r.threshold r.nbParticipants r.collection = true →
     transactionHashEndBlock jsonLoads r = Except.ok none) := by
  constructor
  · intro p d h t h1 h2 h3 h4 h5
    refine ⟨?_, rfl, rfl, rfl⟩
    simp [transactionHashEndBlock, h1, h2, h3, h4, h5]
  · intro h1 h2
    simp [transactionHashEndBlock, h1, h2]

/-- C4 witness: three of four participants submit the payload string, the
decoder returns a tx_hash and a tx_data entry, and the round ends with DONE
and the decoded fields in the state. -/
theorem transaction_hash_end_block_spec_witness :
    transactionHashEndBlock txHashJsonLoads txHashDoneInput =
      Except.ok (some
        ([("participant_to_tx_hash",
            Value.strMap [("a1", "payload"), ("a2", "payload"), ("a3", "payload")]),
          ("most_voted_tx_hash", Value.str "0xabc"),
          ("most_voted_tx_data", Value.str "0xdata")],
         Event.DONE)) :=
  ((transaction_hash_end_block_spec txHashJsonLoads txHashDoneInput).1
    "payload" [("tx_hash", "0xabc"), ("tx_data", "0xdata")] "0xabc" "0xdata"
    (by decide) (by decide) (by decide) (by decide) (by decide)).1

/-- C5: the validation round ends with DONE and records participant_to_votes
when the positive-vote threshold is reached; with the configured exit event
EXIT when the negative-vote threshold is reached and the positive one is
not (the positive check runs first); with NO_MAJORITY on the unchanged
state when neither threshold holds and a majority is impossible; and with
no decision otherwise. -/
theorem transaction_validation_end_block_spec (r : VotingState) :
    exitEvent = Event.EXIT ∧
    (positiveVoteThresholdReached r.threshold r.collection = true →
       transactionValidationEndBlock r =
         some
           (stateUpdate r.periodState
             [("participant_to_votes", Value.boolMap r.collection)],
            Event.DONE) ∧
       PeriodState.participant_to_votes
           (stateUpdate r.periodState
             [("participant_to_votes", Value.boolMap r.collection)]) =
         Except.ok (Value.boolMap r.collection)) ∧
    (positiveVoteThresholdReached r.threshold r.collection = false →
     negativeVoteThresholdReached r.threshold r.collection = true →
       transactionValidationEndBlock r =
         some (stateUpdate r.periodState [], exitEvent)) ∧
    (positiveVoteThresholdReached r.threshold r.collection = false →
     negativeVoteThresholdReached r.threshold r.collection = false →
     isMajorityPossible r.threshold r.nbParticipants r.collection = false →
       transactionValidationEndBlock r = some (r.periodState, Event.NO_MAJORITY)) ∧
    (positiveVoteThresholdReached r.threshold r.collection = false →
     negativeVoteThresholdReached r.threshold r.collection = false →
     isMajorityPossible r.threshold r.nbParticipants r.collection = true →
       transactionValidationEndBlock r = none) := by
  refine ⟨rfl, ?_, ?_, ?_, ?_⟩
  · intro h1
    exact ⟨by simp [transactionValidationEndBlock, h1], rfl⟩
  · intro h1 h2
    simp [transactionValidationEndBlock, h1, h2]
  · intro h1 h2 h3
    simp [transactionValidationEndBlock, h1, h2, h3]
  · intro h1 h2 h3
    simp [transactionValidationEndBlock, h1, h2, h3]

/-- C5 witness: three positive votes of four participants with threshold
three end the round with DONE and the recorded vote map. -/
theorem transaction_validation_end_block_spec_witness :
    transactionValidationEndBlock validationPositiveInput =
      some
        ([("participant_to_votes",
            Value.boolMap [("a1", true), ("a2", true), ("a3", true)]),
          ("k", Value.str "v")],
         Event.DONE) :=
  ((transaction_validation_end_block_spec validationPositiveInput).2.1 (by decide)).1

/-- C6: the keeper-send round returns no decision while the keeper payload
is absent, returns DONE with final_tx_hash equal to the keeper payload once
it is present, and never returns NO_MAJORITY. -/
theorem transaction_send_end_block_spec (r : SendState) :
    (r.keeperPayload = none → transactionSendEndBlock r = none) ∧
    (∀ p, r.keeperPayload = some p →
       transactionSendEndBlock r =
         some (stateUpdate r.periodState [("final_tx_hash", Value.str p)],
               Event.DONE) ∧
       PeriodState.final_tx_hash
           (stateUpdate r.periodState [("final_tx_hash", Value.str p)]) =
         Except.ok (Value.str p)) ∧
    (∀ s, transactionSendEndBlock r = some (s, Event.NO_MAJORITY) → False) := by
  refine ⟨?_, ?_, ?_⟩
  · intro h
    simp [transactionSendEndBlock, h]
  · intro p h
    exact ⟨by simp [transactionSendEndBlock, h], rfl⟩
  · intro s h
    cases hk : r.keeperPayload <;> simp [transactionSendEndBlock, hk] at h

/-- C6 witness: with the keeper payload recorded, the round ends with DONE
and final_tx_hash set to it. -/
theorem transaction_send_end_block_spec_witness :
    transactionSendEndBlock ⟨[], some "0xfinal"⟩ =
      some ([("final_tx_hash", Value.str "0xfinal")], Event.DONE) :=
  ((transaction_send_end_block_spec ⟨[], some "0xfinal"⟩).2.1 "0xfinal" rfl).1

/-- C7: whenever the end_block of any liquidity-provision round returns the
NO_MAJORITY event, the state it returns is the prior period state
unchanged. -/
theorem no_majority_preserves_state :
    (∀ (jsonLoads : String → Option (List (String × String)))
       (r : THState) (s : StateDB),
       transactionHashEndBlock jsonLoads r =
         Except.ok (some (s, Event.NO_MAJORITY)) → s = r.periodState) ∧
    (∀ (r : SigState) (s : StateDB),
       transactionSignatureEndBlock r = some (s, Event.NO_MAJORITY) →
       s = r.periodState) ∧
    (∀ (r : SendState) (s : StateDB),
       transactionSendEndBlock r = some (s, Event.NO_MAJORITY) →
       s = r.periodState) ∧
    (∀ (r : VotingState) (s : StateDB),
       transactionValidationEndBlock r = some (s, Event.NO_MAJORITY) →
       s = r.periodState) ∧
    (∀ (r : StrategyState) (s : StateDB),
       strategyEvaluationEndBlock r = some (s, Event.NO_MAJORITY) →
       s = r.periodState) := by
  refine ⟨?_, ?_, ?_, ?_, ?_⟩
  · intro jsonLoads r s h
    unfold transactionHashEndBlock at h
    repeat' split at h
    all_goals simp_all
  · intro r s h
    unfold transactionSignatureEndBlock at h
    repeat' split at h
    all_goals simp_all
  · intro r s h
    unfold transactionSendEndBlock at h
    repeat' split at h
    all_goals simp_all
  · intro r s h
    unfold transactionValidationEndBlock at h
    repeat' split at h
    all_goals simp_all [exitEvent]
  · intro r s h
    unfold strategyEvaluationEndBlock at h
    repeat' split at h
    all_goals simp_all

/-- C7 witness: a two-against-two vote split among four participants makes
a majority impossible; the round returns NO_MAJORITY with the prior state
untouched. -/
theorem no_majority_preserves_state_witness :
    ([("safe_contract_address", Value.str "0xsafe")] : StateDB) =
      validationSplitInput.periodState :=
  no_majority_preserves_state.2.2.2.1 validationSplitInput
    [("safe_contract_address", Value.str "0xsafe")] (by decide)

/-- C8: verify_contract reports verified exactly when the SHA-512 hex
digest of the utf-8 encoded deployed-bytecode hex string equals the
effective DEPLOYED_BYTECODE_MD5_HASH constant, and reports that digest in
its sha512_hash field. -/
theorem verify_contract_spec (sha512hexdigest : String → String)
    (deployedBytecode : String) :
    ((verify_contract sha512hexdigest deployedBytecode).verified = true ↔
      sha512hexdigest deployedBytecode = DEPLOYED_BYTECODE_MD5_HASH) ∧
    (verify_contract sha512hexdigest deployedBytecode).sha512_hash =
      sha512hexdigest deployedBytecode := by
  constructor
  · show (DEPLOYED_BYTECODE_MD5_HASH == sha512hexdigest deployedBytecode) = true ↔ _
    rw [beq_iff_eq]
    exact eq_comm
  · rfl

/-- C8 witness: a digest equal to the effective constant verifies. -/
theorem verify_contract_spec_witness :
    (verify_contract (fun _ => DEPLOYED_BYTECODE_MD5_HASH) "0x").verified = true :=
  ((verify_contract_spec (fun _ => DEPLOYED_BYTECODE_MD5_HASH) "0x").1).mpr rfl

/-- C9: of the four sequential module-level assignments only the last one,
beginning 75d2a79d, is effective, and a deployed bytecode whose digest
equals one of the first three assigned constants is reported unverified. -/
theorem only_last_bytecode_hash_effective :
    DEPLOYED_BYTECODE_MD5_HASH = bytecodeHashD ∧
    DEPLOYED_BYTECODE_MD5_HASH.take 8 = "75d2a79d" ∧
    ∀ (sha512hexdigest : String → String) (deployedBytecode : String),
      (sha512hexdigest deployedBytecode = bytecodeHashA ∨
       sha512hexdigest deployedBytecode = bytecodeHashB ∨
       sha512hexdigest deployedBytecode = bytecodeHashC) →
      (verify_contract sha512hexdigest deployedBytecode).verified = false := by
  refine ⟨rfl, by decide, ?_⟩
  intro f b h
  have hv : (verify_contract f b).verified = (DEPLOYED_BYTECODE_MD5_HASH == f b) := rfl
  rcases h with h | h | h <;> rw [hv, h] <;> decide

/-- C9 witness: a digest equal to the first assigned constant is reported
unverified. -/
theorem only_last_bytecode_hash_effective_witness :
    (verify_contract (fun _ => bytecodeHashA) "0x").verified = false :=
  only_last_bytecode_hash_effective.2.2 (fun _ => bytecodeHashA) "0x" (Or.inl rfl)

/-- C10: every PeriodState property accessor fails fast with an error when
the named attribute was never set, and returns the stored value, empty or
not, when it was set. -/
theorem period_state_accessors_fail_fast (db : StateDB) :
    ((stateGet db "most_voted_strategy" = none →
        PeriodState.most_voted_strategy db = Except.error "most_voted_strategy") ∧
     (∀ v, stateGet db "most_voted_strategy" = some v →
        PeriodState.most_voted_strategy db = Except.ok v)) ∧
    ((stateGet db "participant_to_votes" = none →
        PeriodState.participant_to_votes db = Except.error "participant_to_votes") ∧
     (∀ v, stateGet db "participant_to_votes" = some v →
        PeriodState.participant_to_votes db = Except.ok v)) ∧
    ((stateGet db "participant_to_strategy" = none →
        PeriodState.participant_to_strategy db = Except.error "participant_to_strategy") ∧
     (∀ v, stateGet db "participant_to_strategy" = some v →
        PeriodState.participant_to_strategy db = Except.ok v)) ∧
    ((stateGet db "participant_to_tx_hash" = none →
        PeriodState.participant_to_tx_hash db = Except.error "participant_to_tx_hash") ∧
     (∀ v, stateGet db "participant_to_tx_hash" = some v →
        PeriodState.participant_to_tx_hash db = Except.ok v)) ∧
    ((stateGet db "most_voted_keeper_address" = none →
        PeriodState.most_voted_keeper_address db = Except.error "most_voted_keeper_address") ∧
     (∀ v, stateGet db "most_voted_keeper_address" = some v →
        PeriodState.most_voted_keeper_address db = Except.ok v)) ∧
    ((stateGet db "safe_contract_address" = none →
        PeriodState.safe_contract_address db = Except.error "safe_contract_address") ∧
     (∀ v, stateGet db "safe_contract_address" = some v →
        PeriodState.safe_contract_address db = Except.ok v)) ∧
    ((stateGet db "multisend_contract_address" = none →
        PeriodState.multisend_contract_address db = Except.error "multisend_contract_address") ∧
     (∀ v, stateGet db "multisend_contract_address" = some v →
        PeriodState.multisend_contract_address db = Except.ok v)) ∧
    ((stateGet db "router_contract_address" = none →
        PeriodState.router_contract_address db = Except.error "router_contract_address") ∧
     (∀ v, stateGet db "router_contract_address" = some v →
        PeriodState.router_contract_address db = Except.ok v)) ∧
    ((stateGet db "participant_to_signature" = none →
        PeriodState.participant_to_signature db = Except.error "participant_to_signature") ∧
     (∀ v, stateGet db "participant_to_signature" = some v →
        PeriodState.participant_to_signature db = Except.ok v)) ∧
    ((stateGet db "most_voted_tx_hash" = none →
        PeriodState.most_voted_tx_hash db = Except.error "most_voted_tx_hash") ∧
     (∀ v, stateGet db "most_voted_tx_hash" = some v →
        PeriodState.most_voted_tx_hash db = Except.ok v)) ∧
    ((stateGet db "most_voted_tx_data" = none →
        PeriodState.most_voted_tx_data db = Except.error "most_voted_tx_data") ∧
     (∀ v, stateGet db "most_voted_tx_data" = some v →
        PeriodState.most_voted_tx_data db = Except.ok v)) ∧
    ((stateGet db "final_tx_hash" = none →
        PeriodState.final_tx_hash db = Except.error "final_tx_hash") ∧
     (∀ v, stateGet db "final_tx_hash" = some v →
        PeriodState.final_tx_hash db = Except.ok v)) :=
  ⟨getStrict_spec db "most_voted_strategy",
   getStrict_spec db "participant_to_votes",
   getStrict_spec db "participant_to_strategy",
   getStrict_spec db "participant_to_tx_hash",
   getStrict_spec db "most_voted_keeper_address",
   getStrict_spec db "safe_contract_address",
   getStrict_spec db "multisend_contract_address",
   getStrict_spec db "router_contract_address",
   getStrict_spec db "participant_to_signature",
   getStrict_spec db "most_voted_tx_hash",
   getStrict_spec db "most_voted_tx_data",
   getStrict_spec db "final_tx_hash"⟩

/-- C10 witness: on an empty store the accessor fails fast naming the
attribute; an attribute set to the empty string is returned normally. -/
theorem period_state_accessors_fail_fast_witness :
    PeriodState.most_voted_strategy [] = Except.error "most_voted_strategy" ∧
    PeriodState.most_voted_strategy [("most_voted_strategy", Value.str "")] =
      Except.ok (Value.str "") :=
  ⟨(period_state_accessors_fail_fast []).1.1 rfl,
   (period_state_accessors_fail_fast
      [("most_voted_strategy", Value.str "")]).1.2 (Value.str "") rfl⟩

end LP
